import Mathlib

/-!
Shallow embedding of the NII stress-test dashboards of this repository
(corp.py, corp2.py, corp3.py, corp_fin.py).  Balances and yields are
modelled as exact rationals; yield curves are maps over the fixed
four-tenor set used by all four scripts.  Every definition is translated
from the source; definitions that instead follow the spec wording (for
comparison with the source formulas) say so in their doc comment.
-/

/-- The four FRED tenor codes used by every script:
yield_codes = [GS3M, GS1, GS5, GS10]. -/
inductive Tenor where
  | GS3M
  | GS1
  | GS5
  | GS10
deriving DecidableEq, Repr

open Tenor

/-- Iteration order of yield_codes, which is also the insertion order of
the yield_labels dict, so every per-tenor loop in the sources visits the
tenors in this order. -/
def tenorOrder : List Tenor := [GS3M, GS1, GS5, GS10]

/-- yield_labels = {GS3M: 3M, GS1: 1Y, GS5: 5Y, GS10: 10Y}. -/
def tenorLabel : Tenor → String
  | GS3M => "3M"
  | GS1 => "1Y"
  | GS5 => "5Y"
  | GS10 => "10Y"

/-- One balance-sheet line item, a row {Type, Balance, Code} of the
assets or liabilities DataFrame. -/
structure Pos where
  ptype : String
  balance : ℚ
  code : Tenor
deriving DecidableEq, Repr

/-! ## corp.py: NII calculator with dict .get lookups -/

/-- corp.py calculate (lines 83-87): the Rate column is
ylds.get(c, 0) * 100 and the Income or Expense column is
Balance * Rate / 100.  The curve is a Python dict, modelled as
Tenor → Option ℚ; a tenor absent from the dict is silently coalesced to
rate 0 by .get(c, 0). -/
def calculateCol (sheet : List Pos) (ylds : Tenor → Option ℚ) : List ℚ :=
  sheet.map (fun p => p.balance * ((ylds p.code).getD 0 * 100) / 100)

/-- Column sum of the Income or Expense field produced by calculate. -/
def incomeTotal (sheet : List Pos) (ylds : Tenor → Option ℚ) : ℚ :=
  (calculateCol sheet ylds).sum

/-- corp.py line 92: ii = income sum minus expense sum. -/
def niiPy (assets liabs : List Pos) (ylds : Tenor → Option ℚ) : ℚ :=
  incomeTotal assets ylds - incomeTotal liabs ylds

/-- Scaling every balance of a sheet by k, the spec notion of a scaled
ledger (balances are the only mutable data of a Position). -/
def scaleSheet (k : ℚ) (sheet : List Pos) : List Pos :=
  sheet.map (fun p => { p with balance := k * p.balance })

/-- A curve with no entry for GS5 but ordinary entries elsewhere, used to
exhibit the silent zero-fill of calculate on a missing tenor. -/
def missingCurve : Tenor → Option ℚ
  | GS5 => none
  | _ => some (3 / 100)

/-- The same curve with the GS5 entry present at 4 percent. -/
def fullCurve : Tenor → Option ℚ
  | GS5 => some (4 / 100)
  | _ => some (3 / 100)

/-! ## corp3.py: NII calculator with direct dict indexing -/

/-- corp3.py calc (lines 117-121): Rate is yields_map[c] * 100 with
direct dict indexing (the curve dicts are built over all four codes, so
the lookup is total here) and the field column is Balance * Rate / 100. -/
def calcCol3 (sheet : List Pos) (y : Tenor → ℚ) : List ℚ :=
  sheet.map (fun p => p.balance * (y p.code * 100) / 100)

/-- Column sum of the field produced by corp3 calc. -/
def incomeTotal3 (sheet : List Pos) (y : Tenor → ℚ) : ℚ :=
  (calcCol3 sheet y).sum

/-- corp3.py line 128: nii = Income sum minus Expense sum. -/
def nii3 (assets liabs : List Pos) (y : Tenor → ℚ) : ℚ :=
  incomeTotal3 assets y - incomeTotal3 liabs y

/-- Total balance of a sheet, as in assets[Balance].sum(). -/
def balanceSum (sheet : List Pos) : ℚ :=
  (sheet.map Pos.balance).sum

/-- corp3.py line 124 with a flat macro shift: shifted =
{c: yields_current[c] + s for c in yield_codes}. -/
def flatShift (y : Tenor → ℚ) (s : ℚ) : Tenor → ℚ :=
  fun c => y c + s

/-! ## corp2.py: NII calculator and netted waterfall -/

/-- corp2.py calculate (lines 96-100): Rate = yield_map.get(c, 0) * 100,
field = Balance * Rate / 100, summed over the sheet.  Both curve dicts of
corp2 are built over all four codes, so the .get default never fires and
the curve is modelled as a total map. -/
def incomeTotal2 (sheet : List Pos) (y : Tenor → ℚ) : ℚ :=
  (sheet.map (fun p => p.balance * (y p.code * 100) / 100)).sum

/-- corp2.py lines 103-109: nii = income sum minus expense sum. -/
def nii2 (assets liabs : List Pos) (y : Tenor → ℚ) : ℚ :=
  incomeTotal2 assets y - incomeTotal2 liabs y

/-- Balance total of the rows of a sheet carrying a given code, as in
assets.loc[assets.Code==c, Balance].sum(). -/
def codeSum (sheet : List Pos) (c : Tenor) : ℚ :=
  ((sheet.filter (fun p => p.code == c)).map Pos.balance).sum

/-- corp2.py net_bal (lines 163-166): asset balances at code c minus
liability balances at code c. -/
def netBal (assets liabs : List Pos) (c : Tenor) : ℚ :=
  codeSum assets c - codeSum liabs c

/-- One row of a waterfall DataFrame: label, Start, End and the stored
(displayed) ΔNII column. -/
structure WStep where
  label : String
  startC : ℚ
  endC : ℚ
  dNII : ℚ
deriving DecidableEq, Repr

/-- Python round(x, 2) over exact rationals: round half to even at the
second decimal.  The sources apply it only to the displayed ΔNII column. -/
def rhe (q : ℚ) : ℤ :=
  let n := ⌊q⌋
  if q - n < 1 / 2 then n
  else if (1 : ℚ) / 2 < q - n then n + 1
  else if n % 2 = 0 then n else n + 1

/-- round(x, 2) of Python, over exact rationals. -/
def pyRound2 (q : ℚ) : ℚ :=
  (rhe (q * 100) : ℚ) / 100

/-- corp2.py waterfall loop (lines 170-173): walks the tenor rows
accumulating cum, emitting one step per tenor with Start = cum,
End = cum + delta and a displayed ΔNII of round(delta, 2); returns the
steps together with the final cum. -/
def corp2Loop : ℚ → List (String × ℚ) → List WStep × ℚ
  | cum, [] => ([], cum)
  | cum, (l, d) :: rest =>
      let r := corp2Loop (cum + d) rest
      (⟨l, cum, cum + d, pyRound2 d⟩ :: r.1, r.2)

/-- corp2.py wf (lines 167-175): a Baseline anchor row, one row per tenor
in yield_codes order with delta = net_bal[c] * (shifts[c] - base[c]), and
a Total row with Start = 0, End = cum, ΔNII = round(cum, 2). -/
def wfCorp2 (assets liabs : List Pos) (y s : Tenor → ℚ) : List WStep :=
  let rows := tenorOrder.map
    (fun c => (tenorLabel c, netBal assets liabs c * (s c - y c)))
  let r := corp2Loop 0 rows
  ⟨"Baseline", 0, 0, 0⟩ :: r.1 ++ [⟨"Total", 0, r.2, pyRound2 r.2⟩]

/-- Sum of the per-tenor waterfall deltas of corp2 (the final cum of the
loop): the total delta of the waterfall. -/
def corp2Total (assets liabs : List Pos) (y s : Tenor → ℚ) : ℚ :=
  (tenorOrder.map (fun c => netBal assets liabs c * (s c - y c))).sum

/-! ## corp_fin.py: ALM gap, duration and DV01 analysis -/

/-- corp_fin.py tenor_map (lines 304-311): balance-sheet Type to tenor
bucket.  A Type outside the table gets a missing bucket (pandas NaN after
.map), and groupby later drops such rows. -/
def tenorMap : String → Option String
  | "Cash" => some "0-3M"
  | "Short Borrow" => some "0-3M"
  | "Deposits" => some "3-12M"
  | "Loans" => some "1-5Y"
  | "Bonds" => some "5Y+"
  | "Corp Bonds" => some "5Y+"
  | _ => none

/-- Key order of dur_map (line 313), which reindex imposes on df_gap. -/
def bucketOrder : List String := ["0-3M", "3-12M", "1-5Y", "5Y+"]

/-- corp_fin.py dur_map (line 313): approximate durations in years. -/
def durMap : String → ℚ
  | "0-3M" => 1 / 4
  | "3-12M" => 3 / 4
  | "1-5Y" => 3
  | "5Y+" => 15 / 2
  | _ => 0

/-- pandas groupby(Bucket)[Balance].sum() of one sheet: defined only for
buckets holding at least one row of the sheet; buckets with no rows are
absent from the grouped Series. -/
def groupSum (sheet : List Pos) (b : String) : Option ℚ :=
  let rows := sheet.filter (fun p => tenorMap p.ptype == some b)
  if rows.isEmpty then none
  else some ((rows.map Pos.balance).sum)

/-- corp_fin.py gap (lines 320-323): the asset grouped sums minus the
liability grouped sums align on bucket labels, so a bucket present on
only one side gives NaN; reindex over dur_map keys inserts NaN for absent
buckets; fillna(0) then turns every NaN into 0. -/
def gapCode (assets liabs : List Pos) (b : String) : ℚ :=
  match groupSum assets b, groupSum liabs b with
  | some a, some l => a - l
  | _, _ => 0

/-- Follows the spec wording (section 4.6), for comparison with gapCode:
gap per bucket = sum of asset balances assigned to the bucket minus sum
of liability balances assigned to the bucket. -/
def gapPerSpec (assets liabs : List Pos) (b : String) : ℚ :=
  ((assets.filter (fun p => tenorMap p.ptype == some b)).map Pos.balance).sum -
    ((liabs.filter (fun p => tenorMap p.ptype == some b)).map Pos.balance).sum

/-- corp_fin.py df_gap (lines 323-324): one row per bucket of the fixed
bucket set, in dur_map key order. -/
def dfGap (assets liabs : List Pos) : List (String × ℚ) :=
  bucketOrder.map (fun b => (b, gapCode assets liabs b))

/-- corp_fin.py line 328: the scenario list of the DV01 table, with flat
decimal shifts. -/
def dv01Scens : List (String × ℚ) :=
  [("Baseline", 0), ("Adverse", -1 / 100), ("Severely Adverse", -1 / 40)]

/-- corp_fin.py dv01_rows (lines 327-339): for each scenario and each
df_gap row, dv01 = pos * D * (bp * 100), where pos is the gap of the
bucket, D its duration and bp the flat decimal shift of the scenario. -/
def dfDv01 (assets liabs : List Pos) : List (String × String × ℚ) :=
  dv01Scens.flatMap (fun sc =>
    (dfGap assets liabs).map (fun row => (sc.1, row.1, row.2 * durMap row.1 * (sc.2 * 100))))

/-- The default tab-1 asset sheet of corp_fin.py (lines 132-136 with the
default sidebar balances of lines 98-103). -/
def defAssets : List Pos :=
  [⟨"Loans", 120, GS5⟩, ⟨"Bonds", 80, GS10⟩, ⟨"Cash", 40, GS3M⟩]

/-- The default tab-1 liability sheet of corp_fin.py (lines 137-141 with
the default sidebar balances). -/
def defLiabs : List Pos :=
  [⟨"Deposits", 130, GS1⟩, ⟨"Short Borrow", 40, GS3M⟩, ⟨"Corp Bonds", 20, GS3M⟩]

/-! ## corp_fin.py: rate/volume/mix attribution (lines 263-276) -/

/-- One matched row of the P&L explain sheets: B0 is the start balance
(column B0 of start_df), B1 the end balance (column B1 of end_df), code
the rate index; rows are matched positionally, as the zips of the source
do. -/
structure PairRow where
  b0 : ℚ
  b1 : ℚ
  code : Tenor
deriving DecidableEq, Repr

/-- One leg of corp_fin.py rate_var (lines 269-270): the source
expression sum(a0[B0] * (r1_map[c] - r0_map[c]) for c in a0[Code]) lets c
range over the code column while multiplying the entire B0 column, so the
accumulated quantity, summed over positions, is (sum of the B0 column)
times (sum over the code column of the rate moves).  (The asset minus
liability subtraction of the source additionally misaligns the pandas
row indices; this model keeps the value-level content of each leg.) -/
def rateVarLeg (rows : List PairRow) (r0 r1 : Tenor → ℚ) : ℚ :=
  (rows.map PairRow.b0).sum * (rows.map (fun p => r1 p.code - r0 p.code)).sum

/-- One leg of corp_fin.py nii0 (line 275), with the same shape as
rateVarLeg: (sum of B0) times (sum of start rates over the code column). -/
def niiStartLeg (rows : List PairRow) (r0 : Tenor → ℚ) : ℚ :=
  (rows.map PairRow.b0).sum * (rows.map (fun p => r0 p.code)).sum

/-- One leg of corp_fin.py nii1 (line 276): (sum of B1) times (sum of end
rates over the code column). -/
def niiEndLeg (rows : List PairRow) (r1 : Tenor → ℚ) : ℚ :=
  (rows.map PairRow.b1).sum * (rows.map (fun p => r1 p.code)).sum

/-- One leg of corp_fin.py vol_var (lines 271-272): the zip pairs each
start balance, end balance and code rowwise, the per-pair formula being
(b1 - b0) * r0[c]. -/
def volVarLeg (rows : List PairRow) (r0 : Tenor → ℚ) : ℚ :=
  (rows.map (fun p => (p.b1 - p.b0) * r0 p.code)).sum

/-- One leg of corp_fin.py mix_var (lines 273-274): rowwise
(b1 - b0) * (r1[c] - r0[c]) via the same zip. -/
def mixVarLeg (rows : List PairRow) (r0 r1 : Tenor → ℚ) : ℚ :=
  (rows.map (fun p => (p.b1 - p.b0) * (r1 p.code - r0 p.code))).sum

/-- corp_fin.py rate_var: asset leg minus liability leg. -/
def rateVarCode (a l : List PairRow) (r0 r1 : Tenor → ℚ) : ℚ :=
  rateVarLeg a r0 r1 - rateVarLeg l r0 r1

/-- corp_fin.py vol_var: asset leg minus liability leg. -/
def volVarCode (a l : List PairRow) (r0 : Tenor → ℚ) : ℚ :=
  volVarLeg a r0 - volVarLeg l r0

/-- corp_fin.py mix_var: asset leg minus liability leg. -/
def mixVarCode (a l : List PairRow) (r0 r1 : Tenor → ℚ) : ℚ :=
  mixVarLeg a r0 r1 - mixVarLeg l r0 r1

/-- corp_fin.py nii0: asset leg minus liability leg. -/
def nii0Code (a l : List PairRow) (r0 : Tenor → ℚ) : ℚ :=
  niiStartLeg a r0 - niiStartLeg l r0

/-- corp_fin.py nii1: asset leg minus liability leg. -/
def nii1Code (a l : List PairRow) (r1 : Tenor → ℚ) : ℚ :=
  niiEndLeg a r1 - niiEndLeg l r1

/-- Follows the spec wording (section 4.5), for comparison with
rateVarLeg: rate variance per leg is the pairwise sum of
balance_start[i] * (rate_end[i] - rate_start[i]). -/
def rateVarAttr (rows : List PairRow) (r0 r1 : Tenor → ℚ) : ℚ :=
  (rows.map (fun p => p.b0 * (r1 p.code - r0 p.code))).sum

/-- Follows the spec wording (section 4.5): starting NII per leg is the
pairwise sum of balance_start[i] * rate_start[i]. -/
def startNiiAttr (rows : List PairRow) (r0 : Tenor → ℚ) : ℚ :=
  (rows.map (fun p => p.b0 * r0 p.code)).sum

/-- Follows the spec wording (section 4.5): ending NII per leg is the
pairwise sum of balance_end[i] * rate_end[i]. -/
def endNiiAttr (rows : List PairRow) (r1 : Tenor → ℚ) : ℚ :=
  (rows.map (fun p => p.b1 * r1 p.code)).sum

/-- The matched asset rows of the failing attribution input: a 100 to 101
loan at GS5, zero bonds at GS10, zero cash at GS3M. -/
def attrAssets : List PairRow := [⟨100, 101, GS5⟩, ⟨0, 0, GS10⟩, ⟨0, 0, GS3M⟩]

/-- The matched liability rows of the failing attribution input: all
balances zero, with the codes of the source sheet. -/
def attrLiabs : List PairRow := [⟨0, 0, GS1⟩, ⟨0, 0, GS3M⟩, ⟨0, 0, GS3M⟩]

/-- Start rates of the failing attribution input: all zero. -/
def attrR0 : Tenor → ℚ := fun _ => 0

/-- End rates of the failing attribution input: GS10 moves to 1 percent,
all other tenors stay at zero. -/
def attrR1 : Tenor → ℚ := fun c => if c = GS10 then 1 / 100 else 0

/-! ## corp3.py / corp.py waterfall (cumsum construction) and chain checks -/

/-- pandas Start = ΔNII.cumsum().shift(fill_value=0) and End = Start +
ΔNII, applied to (label, ΔNII) rows: each row gets Start = running sum so
far and End = Start + ΔNII. -/
def cumRows : ℚ → List (String × ℚ) → List WStep
  | _, [] => []
  | acc, (l, d) :: rest => ⟨l, acc, acc + d, d⟩ :: cumRows (acc + d) rest

/-- corp3.py NII waterfall (lines 193-213; the same construction appears
in corp.py lines 137-156 and corp_fin.py lines 213-223): a Baseline row
with ΔNII 0, one row per tenor with ΔNII = round(bal*r1 - bal*r0, 2), a
Total row with ΔNII = round(strs_nii - base_nii, 2), and Start/End filled
by the cumsum construction over the stored ΔNII column. -/
def wfCorp3 (bal r0 r1 : Tenor → ℚ) : List WStep :=
  let rows := tenorOrder.map
    (fun c => (tenorLabel c, pyRound2 (bal c * r1 c - bal c * r0 c)))
  let total := pyRound2 ((tenorOrder.map (fun c => bal c * r1 c)).sum -
    (tenorOrder.map (fun c => bal c * r0 c)).sum)
  cumRows 0 (("Baseline", 0) :: rows ++ [("Total", total)])

/-- The strict running-sum chain of the spec (section 3): every step has
End = Start + ΔNII and every adjacent pair has next Start = previous
End. -/
def wfChainB : List WStep → Bool
  | [] => true
  | [s] => s.endC == s.startC + s.dNII
  | s :: t :: rest =>
      (s.endC == s.startC + s.dNII) && (t.startC == s.endC) && wfChainB (t :: rest)

/-- Only the adjacency half of the chain: next Start = previous End. -/
def wfAdjB : List WStep → Bool
  | [] => true
  | [_] => true
  | s :: t :: rest => (t.startC == s.endC) && wfAdjB (t :: rest)

/-- Assets of the corp2 chain counterexample: 100 of cash at GS3M. -/
def cexAssets : List Pos := [⟨"Cash", 100, GS3M⟩]

/-- Liabilities of the corp2 chain counterexample: none. -/
def cexLiabs : List Pos := []

/-- Base curve of the corp2 chain counterexample: all tenors at zero. -/
def cexBase : Tenor → ℚ := fun _ => 0

/-- Scenario curve of the corp2 chain counterexample: GS3M at 1 percent,
the rest at zero. -/
def cexShift : Tenor → ℚ := fun c => if c = GS3M then 1 / 100 else 0

/-! ## Helper lemmas -/

theorem incomeTotal_scale (k : ℚ) (sheet : List Pos) (ylds : Tenor → Option ℚ) :
    incomeTotal (scaleSheet k sheet) ylds = k * incomeTotal sheet ylds := by
  induction sheet with
  | nil => simp [incomeTotal, calculateCol, scaleSheet]
  | cons p ps ih =>
      simp only [incomeTotal, calculateCol, scaleSheet, List.map_cons, List.sum_cons] at *
      rw [ih]
      ring

theorem incomeTotal3_flatShift (sheet : List Pos) (y : Tenor → ℚ) (s : ℚ) :
    incomeTotal3 sheet (flatShift y s) = incomeTotal3 sheet y + s * balanceSum sheet := by
  induction sheet with
  | nil => simp [incomeTotal3, calcCol3, balanceSum]
  | cons p ps ih =>
      simp only [incomeTotal3, calcCol3, balanceSum, flatShift, List.map_cons,
        List.sum_cons] at *
      rw [ih]
      ring

theorem codeSum_cons (p : Pos) (ps : List Pos) (c : Tenor) :
    codeSum (p :: ps) c = (if p.code = c then p.balance else 0) + codeSum ps c := by
  by_cases hc : p.code = c <;> simp [codeSum, List.filter_cons, hc]

theorem incomeTotal2_eq_codeSum (sheet : List Pos) (y : Tenor → ℚ) :
    incomeTotal2 sheet y =
      codeSum sheet GS3M * y GS3M + codeSum sheet GS1 * y GS1 +
        codeSum sheet GS5 * y GS5 + codeSum sheet GS10 * y GS10 := by
  induction sheet with
  | nil => simp [incomeTotal2, codeSum]
  | cons p ps ih =>
      simp only [incomeTotal2, List.map_cons, List.sum_cons] at *
      rw [codeSum_cons p ps GS3M, codeSum_cons p ps GS1, codeSum_cons p ps GS5,
        codeSum_cons p ps GS10, ih]
      cases hc : p.code <;> simp [hc] <;> ring

theorem corp2Loop_snd (rows : List (String × ℚ)) :
    ∀ acc : ℚ, (corp2Loop acc rows).2 = acc + (rows.map Prod.snd).sum := by
  induction rows with
  | nil => intro acc; simp [corp2Loop]
  | cons r rs ih =>
      intro acc
      cases r with
      | mk l d =>
          simp only [corp2Loop, List.map_cons, List.sum_cons, ih]
          ring

theorem attr_leg_identity (rows : List PairRow) (r0 r1 : Tenor → ℚ) :
    startNiiAttr rows r0 + rateVarAttr rows r0 r1 + volVarLeg rows r0 +
      mixVarLeg rows r0 r1 = endNiiAttr rows r1 := by
  induction rows with
  | nil => simp [startNiiAttr, rateVarAttr, volVarLeg, mixVarLeg, endNiiAttr]
  | cons p ps ih =>
      simp only [startNiiAttr, rateVarAttr, volVarLeg, mixVarLeg, endNiiAttr,
        List.map_cons, List.sum_cons] at *
      linear_combination ih

theorem wfChainB_cumRows (rows : List (String × ℚ)) :
    ∀ acc : ℚ, wfChainB (cumRows acc rows) = true := by
  induction rows with
  | nil => intro acc; rfl
  | cons r rs ih =>
      intro acc
      cases r with
      | mk l d =>
          cases rs with
          | nil => simp [cumRows, wfChainB]
          | cons r2 rs2 =>
              cases r2 with
              | mk l2 d2 =>
                  simp only [cumRows, wfChainB, beq_self_eq_true,
                    Bool.true_and]
                  exact ih (acc + d)

/-- The additive rate/volume/mix identity of spec section 4.5 holds for
the pairwise (spec-worded) attribution terms, netted over any matched
asset and liability sheets: starting NII + rate variance + volume
variance + mix variance = ending NII, exactly. -/
theorem attribution_spec_identity (a l : List PairRow) (r0 r1 : Tenor → ℚ) :
    (startNiiAttr a r0 - startNiiAttr l r0) +
      (rateVarAttr a r0 r1 - rateVarAttr l r0 r1) +
      (volVarLeg a r0 - volVarLeg l r0) +
      (mixVarLeg a r0 r1 - mixVarLeg l r0 r1) =
      endNiiAttr a r1 - endNiiAttr l r1 := by
  have ha := attr_leg_identity a r0 r1
  have hl := attr_leg_identity l r0 r1
  linear_combination ha - hl

/-! ## Claim theorems: C2, C7, C8 -/

/-- C2: the claim says a position whose tenor is absent from the curve
must make the NII computation fail, surfacing the missing tenor, with no
partial result.  The source (corp.py calculate, corp2.py calculate)
instead coalesces the missing entry to rate 0 via .get(c, 0) and returns
a full result: here a 120-balance GS5 loan yields income 0 under a curve
with no GS5 entry, while the same ledger under a curve carrying GS5 at 4
percent yields 24/5.  The computation is total and returns a value, so
nothing fails and no tenor code is surfaced. -/
theorem c2_missing_tenor_silent_zero :
    incomeTotal [⟨"Loans", 120, GS5⟩] missingCurve = 0 ∧
    incomeTotal [⟨"Loans", 120, GS5⟩] fullCurve = 24 / 5 := by
  constructor
  · norm_num [incomeTotal, calculateCol, missingCurve]
  · norm_num [incomeTotal, calculateCol, fullCurve]

/-- C7: compute_nii (corp.py calculate, lines 83-92) is linear in
balances: scaling every balance by k scales total income, total expense
and nii by k, holding the curve fixed. -/
theorem c7_nii_linear_in_balances (k : ℚ) (assets liabs : List Pos)
    (ylds : Tenor → Option ℚ) :
    incomeTotal (scaleSheet k assets) ylds = k * incomeTotal assets ylds ∧
    incomeTotal (scaleSheet k liabs) ylds = k * incomeTotal liabs ylds ∧
    niiPy (scaleSheet k assets) (scaleSheet k liabs) ylds
      = k * niiPy assets liabs ylds := by
  refine ⟨incomeTotal_scale k assets ylds, incomeTotal_scale k liabs ylds, ?_⟩
  unfold niiPy
  rw [incomeTotal_scale, incomeTotal_scale]
  ring

/-- C8: under a uniform flat shift s of every tenor (corp3.py calc,
lines 117-128, with shifted = yields_current + s), the stressed NII
equals the baseline NII plus s times (total asset balances minus total
liability balances). -/
theorem c8_flat_shift_nii (assets liabs : List Pos) (y : Tenor → ℚ) (s : ℚ) :
    nii3 assets liabs (flatShift y s)
      = nii3 assets liabs y + s * (balanceSum assets - balanceSum liabs) := by
  unfold nii3
  rw [incomeTotal3_flatShift, incomeTotal3_flatShift]
  ring

/-- C3: the corp2.py waterfall (lines 163-175) reconciles to the full NII
difference: the sum of the per-tenor deltas net_bal[c] * (shifts[c] -
base[c]) equals nii under the scenario curve minus nii under the base
curve, and the End value of the final Total step of wf is exactly that
difference. -/
theorem c3_waterfall_total_reconciles (assets liabs : List Pos)
    (y s : Tenor → ℚ) :
    corp2Total assets liabs y s = nii2 assets liabs s - nii2 assets liabs y ∧
    ((wfCorp2 assets liabs y s).getLast?).map WStep.endC
      = some (nii2 assets liabs s - nii2 assets liabs y) := by
  have htot : corp2Total assets liabs y s
      = nii2 assets liabs s - nii2 assets liabs y := by
    unfold nii2
    rw [incomeTotal2_eq_codeSum assets s, incomeTotal2_eq_codeSum liabs s,
      incomeTotal2_eq_codeSum assets y, incomeTotal2_eq_codeSum liabs y]
    simp only [corp2Total, tenorOrder, netBal, List.map_cons, List.map_nil,
      List.sum_cons, List.sum_nil]
    ring
  refine ⟨htot, ?_⟩
  rw [← htot]
  simp only [wfCorp2, ← List.cons_append, List.getLast?_concat, Option.map_some]
  rw [corp2Loop_snd]
  simp only [corp2Total, List.map_map, zero_add]
  rfl

/-- C9: for every ledger, df_gap contains exactly the four buckets 0-3M,
3-12M, 1-5Y, 5Y+ in that fixed order (the reindex over dur_map keys in
corp_fin.py lines 320-324), regardless of where the positions fall. -/
theorem c9_gap_buckets_fixed (assets liabs : List Pos) :
    (dfGap assets liabs).map Prod.fst = bucketOrder := by
  simp [dfGap, List.map_map, Function.comp_def]

/-- C5: the claim says gap maps each bucket to asset balances minus
liability balances there, a liability-only bucket reporting the negated
liability sum.  On the default corp_fin.py ledger the 3-12M bucket holds
only the 130 deposit and the 1-5Y bucket only the 120 loan, yet the
source gap (pandas alignment NaN followed by fillna(0)) reports 0 for
both, where the spec formula gives -130 and 120. -/
theorem c5_one_sided_bucket_zeroed :
    gapCode defAssets defLiabs "3-12M" = 0 ∧
    gapPerSpec defAssets defLiabs "3-12M" = -130 ∧
    gapCode defAssets defLiabs "1-5Y" = 0 ∧
    gapPerSpec defAssets defLiabs "1-5Y" = 120 := by
  refine ⟨?_, ?_, ?_, ?_⟩ <;>
    simp [gapCode, gapPerSpec, groupSum, defAssets, defLiabs, tenorMap,
      List.filter_cons, List.filter_nil]

/-- C4: the claim says DV01 = gap * duration * shift_in_bp with a -0.01
decimal shift being -100 bp.  The source (corp_fin.py line 334) computes
pos * D * (bp * 100), which turns -0.01 into -1, not -100: on the default
ledger the whole DV01 table is below, the Adverse 5Y+ entry being -450,
while gap * duration * (-100) would be -45000. -/
theorem c4_dv01_shift_not_bp :
    dfDv01 defAssets defLiabs =
      [("Baseline", "0-3M", 0), ("Baseline", "3-12M", 0),
       ("Baseline", "1-5Y", 0), ("Baseline", "5Y+", 0),
       ("Adverse", "0-3M", 0), ("Adverse", "3-12M", 0),
       ("Adverse", "1-5Y", 0), ("Adverse", "5Y+", -450),
       ("Severely Adverse", "0-3M", 0), ("Severely Adverse", "3-12M", 0),
       ("Severely Adverse", "1-5Y", 0), ("Severely Adverse", "5Y+", -1125)] ∧
    gapCode defAssets defLiabs "5Y+" * durMap "5Y+" * (-100) = -45000 ∧
    (-450 : ℚ) ≠ -45000 := by
  refine ⟨?_, ?_, by norm_num⟩ <;>
    simp [dfDv01, dfGap, dv01Scens, bucketOrder, gapCode, groupSum,
      defAssets, defLiabs, tenorMap, durMap, List.filter_cons,
      List.filter_nil] <;>
    norm_num

/-- C10: every DV01 row of the scenario with flat shift 0 (the Baseline
scenario of corp_fin.py line 328) has DV01 exactly 0, for every ledger
and bucket, because dv01 = pos * D * (0 * 100). -/
theorem c10_baseline_dv01_zero (assets liabs : List Pos)
    (r : String × String × ℚ) (hmem : r ∈ dfDv01 assets liabs)
    (hname : r.1 = "Baseline") : r.2.2 = 0 := by
  simp only [dfDv01] at hmem
  rw [List.mem_flatMap] at hmem
  obtain ⟨sc, hsc, hr⟩ := hmem
  rw [List.mem_map] at hr
  obtain ⟨row, _, hrow⟩ := hr
  simp only [dv01Scens, List.mem_cons, List.not_mem_nil, or_false] at hsc
  rcases hsc with h | h | h <;> subst h <;> rw [← hrow] at hname ⊢
  · simp
  · simp at hname
  · simp at hname

/-- C10 witness: the Baseline 0-3M row of the default-ledger DV01 table
is in the table and its DV01 is 0, via c10_baseline_dv01_zero. -/
theorem c10_baseline_dv01_zero_witness :
    (("Baseline", "0-3M", (0 : ℚ)) ∈ dfDv01 defAssets defLiabs) ∧
    ("Baseline", "0-3M", (0 : ℚ)).2.2 = 0 := by
  have hmem : ("Baseline", "0-3M", (0 : ℚ)) ∈ dfDv01 defAssets defLiabs := by
    simp [dfDv01, dfGap, dv01Scens, bucketOrder, gapCode, groupSum,
      defAssets, defLiabs, tenorMap, durMap, List.filter_cons,
      List.filter_nil]
  exact ⟨hmem, c10_baseline_dv01_zero defAssets defLiabs _ hmem rfl⟩

/-- C1: the claim says starting NII + rate variance + volume variance +
mix variance = ending NII exactly for every pair of matched snapshots.
The source (corp_fin.py lines 269-276) builds rate_var, nii0 and nii1 by
ranging the code variable over the code column while multiplying the
whole balance column (unlike vol_var and mix_var, which zip rowwise), so
the identity fails: with a single 100 to 101 loan at GS5, all other rows
zero, rates all zero at the start and only GS10 at 1 percent at the end,
the left side evaluates to 1 while nii1 evaluates to 101/100. -/
theorem c1_attribution_identity_fails :
    nii0Code attrAssets attrLiabs attrR0 +
        rateVarCode attrAssets attrLiabs attrR0 attrR1 +
        volVarCode attrAssets attrLiabs attrR0 +
        mixVarCode attrAssets attrLiabs attrR0 attrR1 = 1 ∧
    nii1Code attrAssets attrLiabs attrR1 = 101 / 100 ∧
    ((1 : ℚ) ≠ 101 / 100) := by
  refine ⟨?_, ?_, by norm_num⟩ <;>
    · simp [nii0Code, rateVarCode, volVarCode, mixVarCode, nii1Code,
        niiStartLeg, rateVarLeg, volVarLeg, mixVarLeg, niiEndLeg,
        attrAssets, attrLiabs, attrR0, attrR1]
      try norm_num

/-- C6: amended chain claim.  The cumsum-built waterfalls (corp3.py lines
210-213, corp.py lines 153-156, corp_fin.py lines 221-223) satisfy the
claim in full: Baseline anchor first with delta 0, Total last, End =
Start + ΔNII at every row and next Start = previous End at every adjacent
pair.  The corp2.py waterfall keeps the Baseline anchor first and the
Total row last and satisfies the adjacency chain among all rows before
Total, but its Total row restarts at Start = 0, with End equal to the sum
of the per-tenor deltas. -/
theorem c6_waterfall_chain_amended :
    (∀ bal r0 r1 : Tenor → ℚ,
      wfChainB (wfCorp3 bal r0 r1) = true ∧
      (wfCorp3 bal r0 r1).head? = some ⟨"Baseline", 0, 0, 0⟩ ∧
      ((wfCorp3 bal r0 r1).getLast?).map WStep.label = some "Total") ∧
    (∀ (assets liabs : List Pos) (y s : Tenor → ℚ),
      (wfCorp2 assets liabs y s).head? = some ⟨"Baseline", 0, 0, 0⟩ ∧
      wfAdjB ((wfCorp2 assets liabs y s).dropLast) = true ∧
      ((wfCorp2 assets liabs y s).getLast?).map WStep.label = some "Total" ∧
      ((wfCorp2 assets liabs y s).getLast?).map WStep.startC = some 0 ∧
      ((wfCorp2 assets liabs y s).getLast?).map WStep.endC
        = some (corp2Total assets liabs y s)) := by
  constructor
  · intro bal r0 r1
    refine ⟨?_, ?_, ?_⟩
    · simp only [wfCorp3]
      exact wfChainB_cumRows _ 0
    · simp [wfCorp3, cumRows, tenorOrder, tenorLabel]
    · rfl
  · intro assets liabs y s
    refine ⟨rfl, ?_, rfl, rfl, ?_⟩
    · simp [wfCorp2, corp2Loop, tenorOrder, tenorLabel, List.dropLast, wfAdjB]
    · simp only [wfCorp2, corp2Loop, tenorOrder, tenorLabel, List.map_cons,
        List.map_nil, ← List.cons_append, List.getLast?_concat,
        Option.map_some, corp2Total, List.sum_cons, List.sum_nil]
      simp only [Option.map_some']
      rw [Option.some.injEq]
      ring

/-- C6 counterexample: the corp2.py waterfall violates the strict
running-sum chain as claimed: with 100 of cash at GS3M, no liabilities
and a 1 percent GS3M move, the 10Y row ends at 1 while the Total row
starts at 0, so the chain check is false. -/
theorem c6_chain_fails_on_corp2 :
    wfChainB (wfCorp2 cexAssets cexLiabs cexBase cexShift) = false := by
  simp [wfCorp2, corp2Loop, tenorOrder, tenorLabel, wfChainB, netBal,
    codeSum, cexAssets, cexLiabs, cexBase, cexShift, List.filter_cons,
    List.filter_nil, pyRound2, rhe]
